import Mathlib

/-!
Verification of the single-use key server (`server.js`).

The development shallowly embeds the key table and its operations:

* a row of the `keys` table (`Row`), keyed by its `token` column;
* the store as an association list `Store := List (String × Row)` with
  `lookup`, `setRow` (SQL `UPDATE ... WHERE token = ?`, at most one row
  matches since `token` is `UNIQUE`) and `insertRow` (SQL `INSERT`);
* `consumeToken` (lines 64–81 of `server.js`): lookup, early returns for
  `not_found` / `already_used`, then the conditional
  `UPDATE ... WHERE token = ? AND used = 0` whose affected-row count
  decides between the `race_or_used` and the successful outcome;
* the two HTTP handlers `POST /validate` and `GET /validate`
  (lines 84–108), including the JS truthiness coalescing
  (`req.query.key || req.query.token`, `machine_id || null`);
* the Telegram `/getkey` issuance path (lines 118–151), with the
  random generator abstracted as a stream of candidate token values;
* an interleaving semantics for N concurrent `consumeToken` calls on one
  token, where the SELECT and the conditional UPDATE are each one atomic
  action on the shared row, as SQLite guarantees.

JavaScript `undefined`/`null` string values are modelled as `Option String`
with `none`; JS string truthiness (`""`, `null`, `undefined` are falsy) is
`jsTruthy`; the SQL integer column `used` (only ever 0 or 1) is a `Bool`.
-/

/-- JS truthiness of a possibly-absent string: `undefined`, `null` and `""`
are falsy, every other string is truthy. -/
def jsTruthy : Option String → Bool
  | none => false
  | some s => s ≠ ""

/-- JS `a || b` on possibly-absent strings. -/
def jsOr (a b : Option String) : Option String :=
  if jsTruthy a then a else b

/-- JS `a || null` on a possibly-absent string (used at
`consumed_by = machine_id || null` in the UPDATE of `consumeToken`). -/
def jsOrNull (a : Option String) : Option String :=
  if jsTruthy a then a else none

/-- One row of the `keys` table (the `id` autoincrement column is the
position in the list and is not modelled as a field). `used INTEGER
DEFAULT 0` holds only 0 or 1 and is modelled as a `Bool`. -/
structure Row where
  telegram_user_id : Nat
  channels : String
  created_at : Nat
  used : Bool
  consumed_by : Option String
  consumed_at : Option Nat
deriving DecidableEq, Repr

/-- The `keys` table: association list from `token` (UNIQUE) to its row. -/
abbrev Store := List (String × Row)

/-- `SELECT * FROM keys WHERE token = ?`. -/
def lookup : Store → String → Option Row
  | [], _ => none
  | (u, r) :: rest, t => if u = t then some r else lookup rest t

/-- `UPDATE keys SET ... WHERE token = ?`: replaces the first row whose
token matches (`token` is UNIQUE, so at most one row ever matches). -/
def setRow : Store → String → Row → Store
  | [], _, _ => []
  | (u, r) :: rest, t, nr =>
      if u = t then (u, nr) :: rest else (u, r) :: setRow rest t nr

/-- `INSERT INTO keys (token, telegram_user_id, channels, created_at)`:
the unnamed columns `used`, `consumed_by`, `consumed_at` take their
defaults (0, NULL, NULL). -/
def newRow (uid : Nat) (channels : String) (now : Nat) : Row :=
  { telegram_user_id := uid, channels := channels, created_at := now,
    used := false, consumed_by := none, consumed_at := none }

/-- `INSERT` of a fresh token appends a row to the table. -/
def insertRow (db : Store) (t : String) (uid : Nat) (channels : String)
    (now : Nat) : Store :=
  db ++ [(t, newRow uid channels now)]

/-- The JSON payload `consumeToken` resolves with: `ok`, `valid`, and the
optional `reason` / `consumed_at` fields. -/
structure RRes where
  ok : Bool
  valid : Bool
  reason : Option String
  consumed_at : Option Nat
deriving DecidableEq, Repr

/-- `{ ok: true, valid: false, reason: 'not_found' }` (line 66). -/
def notFoundRes : RRes :=
  { ok := true, valid := false, reason := some "not_found", consumed_at := none }

/-- `{ ok: true, valid: false, reason: 'already_used' }` (line 67). -/
def alreadyUsedRes : RRes :=
  { ok := true, valid := false, reason := some "already_used", consumed_at := none }

/-- `{ ok: true, valid: false, reason: 'race_or_used' }` (line 78). -/
def raceRes : RRes :=
  { ok := true, valid := false, reason := some "race_or_used", consumed_at := none }

/-- `{ ok: true, valid: true, consumed_at: now }` (line 80). -/
def redeemedRes (now : Nat) : RRes :=
  { ok := true, valid := true, reason := none, consumed_at := some now }

/-- The row written by the conditional UPDATE of `consumeToken`:
`used = 1, consumed_by = machine_id || null, consumed_at = now`. -/
def consumedRow (row : Row) (machine_id : Option String) (now : Nat) : Row :=
  { row with used := true, consumed_by := jsOrNull machine_id,
             consumed_at := some now }

/-- `UPDATE keys SET used = 1, consumed_by = ?, consumed_at = ? WHERE
token = ? AND used = 0` (lines 70–75): returns the new table and the
affected-row count `r.changes` (0 or 1). -/
def runUpdate (db : Store) (token : String) (machine_id : Option String)
    (now : Nat) : Store × Nat :=
  match lookup db token with
  | none => (db, 0)
  | some row =>
      if row.used then (db, 0)
      else (setRow db token (consumedRow row machine_id now), 1)

/-- `consumeToken(token, machine_id)` (lines 64–81), sequential semantics:
the timestamp `Date.now()` is the explicit argument `now`, and the table
is passed and returned explicitly. -/
def consumeToken (db : Store) (token : String) (machine_id : Option String)
    (now : Nat) : RRes × Store :=
  match lookup db token with
  | none => (notFoundRes, db)
  | some row =>
      if row.used then (alreadyUsedRes, db)
      else
        let u := runUpdate db token machine_id now
        if u.2 = 0 then (raceRes, u.1) else (redeemedRes now, u.1)

/-! ### Basic store lemmas -/

theorem lookup_setRow_self (db : Store) (t : String) (nr : Row)
    (h : (lookup db t).isSome) : lookup (setRow db t nr) t = some nr := by
  induction db with
  | nil => simp [lookup] at h
  | cons p rest ih =>
      obtain ⟨u, r⟩ := p
      by_cases hu : u = t
      · simp [lookup, setRow, hu]
      · simp [lookup, setRow, hu] at h ⊢
        exact ih h

theorem lookup_setRow_ne (db : Store) (t t' : String) (nr : Row)
    (h : t' ≠ t) : lookup (setRow db t nr) t' = lookup db t' := by
  induction db with
  | nil => simp [setRow]
  | cons p rest ih =>
      obtain ⟨u, r⟩ := p
      by_cases hu : u = t
      · subst hu
        simp [lookup, setRow, Ne.symm h]
      · simp only [setRow, if_neg hu, lookup]
        by_cases hu' : u = t'
        · simp [hu']
        · simp [hu', ih]

theorem lookup_append_single (db : Store) (t t' : String) (r : Row) :
    lookup (db ++ [(t, r)]) t' =
      match lookup db t' with
      | some x => some x
      | none => if t = t' then some r else none := by
  induction db with
  | nil => simp [lookup]
  | cons p rest ih =>
      obtain ⟨u, x⟩ := p
      by_cases hu : u = t'
      · simp [lookup, hu]
      · simp [lookup, hu, ih]

/-- The store returned by `consumeToken`: either untouched, or the
result of the conditional UPDATE on an unused row. -/
theorem consumeToken_store_cases (db : Store) (t : String)
    (m : Option String) (now : Nat) :
    (consumeToken db t m now).2 = db ∨
    ∃ row, lookup db t = some row ∧ row.used = false ∧
      (consumeToken db t m now).2 = setRow db t (consumedRow row m now) := by
  unfold consumeToken
  cases h : lookup db t with
  | none => left; rfl
  | some row =>
      by_cases hu : row.used
      · left; simp [hu]
      · right
        refine ⟨row, rfl, by simpa using hu, ?_⟩
        simp [runUpdate, h, hu]

/-! ### C4 — unknown token -/

/-- C4: redeeming a token value not present in the store returns
`{ok:true, valid:false, reason:'not_found'}` and leaves the store
completely unchanged — no row is created or modified. -/
theorem c4_not_found (db : Store) (t : String) (m : Option String)
    (now : Nat) (h : lookup db t = none) :
    consumeToken db t m now = (notFoundRes, db) := by
  unfold consumeToken
  rw [h]

theorem c4_not_found_witness :
    lookup [("tok", newRow 7 "c" 0)] "ghost" = none ∧
    consumeToken [("tok", newRow 7 "c" 0)] "ghost" (some "dev") 5 =
      (notFoundRes, [("tok", newRow 7 "c" 0)]) :=
  ⟨by decide, c4_not_found _ _ _ _ (by decide)⟩

/-! ### C3 — idempotent failure on a used token -/

/-- C3: a redeem call on a token whose state is USED returns
`{ok:true, valid:false, reason:'already_used'}` and leaves the store —
in particular the token's `used`, `consumed_by`, `consumed_at` — exactly
as it was, raising no error (`ok = true`). -/
theorem c3_already_used (db : Store) (t : String) (row : Row)
    (m : Option String) (now : Nat)
    (hrow : lookup db t = some row) (hused : row.used = true) :
    consumeToken db t m now = (alreadyUsedRes, db) ∧
    lookup (consumeToken db t m now).2 t = some row ∧
    alreadyUsedRes.ok = true ∧ alreadyUsedRes.valid = false := by
  unfold consumeToken
  rw [hrow]
  simp [hused, hrow, alreadyUsedRes]

theorem c3_already_used_witness :
    lookup [("tok", consumedRow (newRow 7 "c" 0) (some "deviceA") 3)] "tok" =
      some (consumedRow (newRow 7 "c" 0) (some "deviceA") 3) ∧
    (consumedRow (newRow 7 "c" 0) (some "deviceA") 3).used = true ∧
    (consumeToken [("tok", consumedRow (newRow 7 "c" 0) (some "deviceA") 3)]
        "tok" (some "deviceB") 9 =
      (alreadyUsedRes, [("tok", consumedRow (newRow 7 "c" 0) (some "deviceA") 3)]) ∧
     lookup (consumeToken [("tok", consumedRow (newRow 7 "c" 0) (some "deviceA") 3)]
        "tok" (some "deviceB") 9).2 "tok" =
      some (consumedRow (newRow 7 "c" 0) (some "deviceA") 3) ∧
     alreadyUsedRes.ok = true ∧ alreadyUsedRes.valid = false) :=
  ⟨by decide, by decide,
   c3_already_used _ _ _ (some "deviceB") 9 (by decide) (by decide)⟩

/-! ### C10 — one timestamp for the stored field and the response -/

/-- C10: when `consumeToken` succeeds, the `consumed_at` of the returned
payload and the `consumed_at` written to the token's row are both the
single `now` taken by that call. -/
theorem c10_timestamp (db : Store) (t : String) (m : Option String)
    (now : Nat) (r : RRes) (db' : Store)
    (h : consumeToken db t m now = (r, db')) (hv : r.valid = true) :
    r.consumed_at = some now ∧
    ∃ row', lookup db' t = some row' ∧ row'.consumed_at = some now := by
  unfold consumeToken at h
  cases hl : lookup db t with
  | none =>
      rw [hl] at h
      cases h
      simp [notFoundRes] at hv
  | some row =>
      rw [hl] at h
      by_cases hu : row.used
      · simp only [hu, if_true] at h
        cases h
        simp [alreadyUsedRes] at hv
      · simp only [hu, if_false, runUpdate, hl] at h
        simp only [Bool.false_eq_true, if_false] at h
        cases h
        refine ⟨rfl, consumedRow row m now, ?_, rfl⟩
        exact lookup_setRow_self db t _ (by simp [hl])

/-! ### HTTP handlers (lines 84–108) -/

/-- An HTTP response of the two `/validate` handlers: either an early
`res.status(400).json({ok:false, error: msg})`, or `res.json(out)` with
the `consumeToken` payload (status 200). -/
inductive Resp where
  | clientErr (msg : String)
  | result (r : RRes)
deriving DecidableEq, Repr

/-- `POST /validate` (lines 84–94): destructures `{token, machine_id}`
from `req.body || {}` (an absent body behaves as an empty object), rejects
a falsy token with status 400 `{ok:false, error:'no token'}`, and
otherwise resolves with the `consumeToken` payload. -/
def postValidate (db : Store) (body : Option (Option String × Option String))
    (now : Nat) : Resp × Store :=
  let token := (body.getD (none, none)).1
  let machine_id := (body.getD (none, none)).2
  match token with
  | none => (.clientErr "no token", db)
  | some s =>
      if s = "" then (.clientErr "no token", db)
      else
        let out := consumeToken db s machine_id now
        (.result out.1, out.2)

/-- Extraction of the token on `GET /validate`:
`req.query.key || req.query.token` (line 99). -/
def getQueryToken (key tok : Option String) : Option String :=
  jsOr key tok

/-- Extraction of the claimant on `GET /validate`:
`req.query.mid || req.query.machine_id || null` (line 100). -/
def getQueryClaimant (mid mach : Option String) : Option String :=
  jsOr mid (jsOr mach none)

/-- `GET /validate` (lines 97–108): reads the token from `key` with
fallback `token`, the claimant from `mid` with fallback `machine_id` and
default `null`, rejects a falsy token with status 400
`{ok:false, error:'no key'}`, and otherwise resolves with the
`consumeToken` payload. -/
def getValidate (db : Store) (key tok mid mach : Option String)
    (now : Nat) : Resp × Store :=
  let token := getQueryToken key tok
  let machine_id := getQueryClaimant mid mach
  match token with
  | none => (.clientErr "no key", db)
  | some s =>
      if s = "" then (.clientErr "no key", db)
      else
        let out := consumeToken db s machine_id now
        (.result out.1, out.2)

/-- The stored claimant only depends on the claimant up to the
`machine_id || null` coalescing done inside the UPDATE. -/
theorem consumeToken_claimant_coalesce (db : Store) (t : String)
    (m : Option String) (now : Nat) :
    consumeToken db t (jsOrNull m) now = consumeToken db t m now := by
  have hj : jsOrNull (jsOrNull m) = jsOrNull m := by
    unfold jsOrNull
    cases m with
    | none => simp [jsTruthy]
    | some s => by_cases hs : s = "" <;> simp [jsTruthy, hs]
  unfold consumeToken runUpdate consumedRow
  rw [hj]

/-! ### C7 — missing or empty token is rejected before touching the store -/

/-- C7: when the token value is missing or empty (JS-falsy), both the
structured-body and the query-parameter entry point answer with the
client-side 400 error and do not run the conditional redeem: the store is
returned unchanged. -/
theorem c7_invalid_input (db : Store) (t m key tok mid mach : Option String)
    (now : Nat) (hpost : jsTruthy t = false)
    (hget : jsTruthy (getQueryToken key tok) = false) :
    postValidate db (some (t, m)) now = (.clientErr "no token", db) ∧
    getValidate db key tok mid mach now = (.clientErr "no key", db) := by
  constructor
  · unfold postValidate
    cases t with
    | none => rfl
    | some s =>
        simp [jsTruthy] at hpost
        simp [hpost]
  · unfold getValidate
    cases hq : getQueryToken key tok with
    | none => rfl
    | some s =>
        rw [hq] at hget
        simp [jsTruthy] at hget
        simp [hget]

theorem c7_invalid_input_witness :
    jsTruthy (some "") = false ∧
    jsTruthy (getQueryToken none (some "")) = false ∧
    (postValidate [("tok", newRow 7 "c" 0)] (some (some "", some "dev")) 5 =
       (.clientErr "no token", [("tok", newRow 7 "c" 0)]) ∧
     getValidate [("tok", newRow 7 "c" 0)] none (some "") (some "dev") none 5 =
       (.clientErr "no key", [("tok", newRow 7 "c" 0)])) :=
  ⟨by decide, by decide,
   c7_invalid_input _ (some "") (some "dev") none (some "") (some "dev") none 5
     (by decide) (by decide)⟩

/-! ### C5 — entry-point equivalence -/

/-- C5 counterexample: on the logically identical input "token absent",
the structured-body handler answers `{ok:false, error:'no token'}` while
the query-parameter handler answers `{ok:false, error:'no key'}` — the
payloads are not byte-identical. -/
theorem c5_counterexample :
    postValidate [] (some (none, none)) 0 = (.clientErr "no token", []) ∧
    getValidate [] none none none none 0 = (.clientErr "no key", []) ∧
    Resp.clientErr "no token" ≠ Resp.clientErr "no key" := by
  decide

/-- C5 amended: for a non-empty token the two entry points give
byte-identical payloads and identical store effects for the same token
and claimant; for a missing/empty token both reject with a status-400
client error, but the error messages differ (`'no token'` vs `'no key'`). -/
theorem c5_entry_points (db : Store) (t c : Option String) (now : Nat) :
    (jsTruthy t = true →
      postValidate db (some (t, c)) now = getValidate db t none c none now) ∧
    (jsTruthy t = false →
      postValidate db (some (t, c)) now = (.clientErr "no token", db) ∧
      getValidate db t none c none now = (.clientErr "no key", db)) := by
  constructor
  · intro ht
    cases t with
    | none => simp [jsTruthy] at ht
    | some s =>
        simp only [jsTruthy, ne_eq, decide_eq_true_eq] at ht
        have hq : getQueryToken (some s) none = some s := by
          simp [getQueryToken, jsOr, jsTruthy, ht]
        have hc : getQueryClaimant c none = jsOrNull c := by
          simp [getQueryClaimant, jsOr, jsOrNull, jsTruthy]
        unfold postValidate getValidate
        rw [hq, hc]
        simp only [Option.getD_some, if_neg ht]
        rw [consumeToken_claimant_coalesce]
  · intro ht
    exact c7_invalid_input db t c t none c none now ht
      (by simp only [getQueryToken, jsOr, ht, Bool.false_eq_true,
            if_false]; rfl)

theorem c5_entry_points_witness :
    (jsTruthy (some "tok") = true ∧
     postValidate [("tok", newRow 7 "c" 0)] (some (some "tok", some "dev")) 5 =
       getValidate [("tok", newRow 7 "c" 0)] (some "tok") none (some "dev") none 5) ∧
    (jsTruthy (none : Option String) = false ∧
     postValidate [] (some (none, some "dev")) 5 = (.clientErr "no token", []) ∧
     getValidate [] none none (some "dev") none 5 = (.clientErr "no key", [])) :=
  ⟨⟨by decide,
    (c5_entry_points [("tok", newRow 7 "c" 0)] (some "tok") (some "dev") 5).1 (by decide)⟩,
   ⟨by decide, (c5_entry_points [] none (some "dev") 5).2 (by decide)⟩⟩

/-! ### C9 — query-parameter aliases -/

/-- C9 counterexample: a request carrying both aliases with `key=""` and
`token="tok"` (and `mid=""`, `machine_id="mach"`) extracts `token`'s and
`machine_id`'s values — the `key`/`mid` values do not take precedence
when they are empty strings, because `||` tests JS truthiness, not
presence. -/
theorem c9_counterexample :
    getQueryToken (some "") (some "tok") = some "tok" ∧
    getQueryClaimant (some "") (some "mach") = some "mach" ∧
    (some "tok" : Option String) ≠ some "" := by
  decide

/-- C9 amended: the token is read from `key` and the claimant from `mid`
whenever those values are truthy (present and non-empty); a falsy
(absent or empty) `key` falls back to `token`, a falsy `mid` falls back
to `machine_id`, and the claimant defaults to null when both are falsy. -/
theorem c9_query_aliases (key tok mid mach : Option String) :
    (jsTruthy key = true → getQueryToken key tok = key) ∧
    (jsTruthy key = false → getQueryToken key tok = tok) ∧
    (jsTruthy mid = true → getQueryClaimant mid mach = mid) ∧
    (jsTruthy mid = false → jsTruthy mach = true →
      getQueryClaimant mid mach = mach) ∧
    (jsTruthy mid = false → jsTruthy mach = false →
      getQueryClaimant mid mach = none) := by
  refine ⟨?_, ?_, ?_, ?_, ?_⟩
  · intro h; simp [getQueryToken, jsOr, h]
  · intro h; simp [getQueryToken, jsOr, h]
  · intro h; simp [getQueryClaimant, jsOr, h]
  · intro h h'; simp [getQueryClaimant, jsOr, h, h']
  · intro h h'; simp [getQueryClaimant, jsOr, h, h']

theorem c9_query_aliases_witness :
    (jsTruthy (some "k") = true ∧ getQueryToken (some "k") (some "t") = some "k") ∧
    (jsTruthy (none : Option String) = false ∧
     getQueryToken none (some "t") = some "t") ∧
    (jsTruthy (some "m") = true ∧
     getQueryClaimant (some "m") (some "mm") = some "m") ∧
    (getQueryClaimant none (some "mm") = some "mm") ∧
    (getQueryClaimant none none = none) :=
  ⟨⟨by decide, (c9_query_aliases (some "k") (some "t") (some "m") (some "mm")).1 (by decide)⟩,
   ⟨by decide, (c9_query_aliases none (some "t") (some "m") (some "mm")).2.1 (by decide)⟩,
   ⟨by decide, (c9_query_aliases (some "k") (some "t") (some "m") (some "mm")).2.2.1 (by decide)⟩,
   (c9_query_aliases (some "k") (some "t") none (some "mm")).2.2.2.1 (by decide) (by decide),
   (c9_query_aliases (some "k") (some "t") none none).2.2.2.2 (by decide) (by decide)⟩

/-! ### C6 — reachable states and the consumed-fields invariant -/

/-- Store states reachable by the server: the table starts empty
(`CREATE TABLE IF NOT EXISTS`), the `/getkey` handler inserts a fresh row
(the UNIQUE constraint aborts a colliding INSERT without modifying the
table), and the `/validate` handlers run `consumeToken`. A concurrent
interleaving writes the store only through the same conditional UPDATE,
whose effect on the table coincides with `(consumeToken db t m now).2`,
so these constructors also cover the states produced under races. -/
inductive Reachable : Store → Prop
  | init : Reachable []
  | issue (db : Store) (t : String) (uid : Nat) (ch : String) (now : Nat) :
      Reachable db → lookup db t = none → Reachable (insertRow db t uid ch now)
  | redeem (db : Store) (t : String) (m : Option String) (now : Nat) :
      Reachable db → Reachable (consumeToken db t m now).2

/-- C6 counterexample: issuing a token and redeeming it with no claimant
(`machine_id` absent, stored as `consumed_by = null`) reaches a store
whose row is USED yet has `consumed_by` unset — `consumedBy` set is not
equivalent to `state == USED`. -/
theorem c6_counterexample :
    Reachable (consumeToken (insertRow [] "tok" 7 "ch" 0) "tok" none 5).2 ∧
    lookup (consumeToken (insertRow [] "tok" 7 "ch" 0) "tok" none 5).2 "tok" =
      some { telegram_user_id := 7, channels := "ch", created_at := 0,
             used := true, consumed_by := none, consumed_at := some 5 } ∧
    ({ telegram_user_id := 7, channels := "ch", created_at := 0,
       used := true, consumed_by := none, consumed_at := some 5 : Row }.used = true ∧
     { telegram_user_id := 7, channels := "ch", created_at := 0,
       used := true, consumed_by := none, consumed_at := some 5 : Row }.consumed_by = none) :=
  ⟨Reachable.redeem _ "tok" none 5
     (Reachable.issue [] "tok" 7 "ch" 0 Reachable.init (by decide)),
   by decide, by decide, by decide⟩

/-- C6 amended: in every reachable store state, a row's `consumed_at` is
set exactly when its state is USED, and a set `consumed_by` implies USED
(the converse fails: a redemption whose claimant was absent or empty
stores `consumed_by = null` on a USED row); issuance creates rows with
`used = 0` and both consumed fields unset. -/
theorem c6_consumed_fields (db : Store) (t : String) (row : Row)
    (hdb : Reachable db) (hrow : lookup db t = some row) :
    (row.consumed_at.isSome = row.used ∧
     (row.consumed_by.isSome = true → row.used = true)) ∧
    ((newRow 7 "ch" 0).used = false ∧ (newRow 7 "ch" 0).consumed_by = none ∧
     (newRow 7 "ch" 0).consumed_at = none) := by
  refine ⟨?_, by decide, by decide, by decide⟩
  induction hdb generalizing t row with
  | init => simp [lookup] at hrow
  | issue db0 t0 uid ch now _ hfresh ih =>
      rw [insertRow, lookup_append_single] at hrow
      cases hl : lookup db0 t with
      | some x =>
          rw [hl] at hrow
          simp only [Option.some.injEq] at hrow
          exact hrow ▸ ih t x hl
      | none =>
          rw [hl] at hrow
          by_cases he : t0 = t
          · rw [if_pos he] at hrow
            injection hrow with hrow
            subst hrow
            simp [newRow]
          · simp [he] at hrow
  | redeem db0 t0 m now _ ih =>
      rcases consumeToken_store_cases db0 t0 m now with hsame | ⟨r0, hr0, hu0, hset⟩
      · rw [hsame] at hrow
        exact ih t row hrow
      · rw [hset] at hrow
        by_cases he : t = t0
        · subst he
          rw [lookup_setRow_self db0 t _ (by simp [hr0])] at hrow
          simp only [Option.some.injEq] at hrow
          subst hrow
          simp [consumedRow]
        · rw [lookup_setRow_ne db0 t0 t _ he] at hrow
          exact ih t row hrow

theorem c6_consumed_fields_witness :
    Reachable [("tok", newRow 7 "ch" 0)] ∧
    lookup [("tok", newRow 7 "ch" 0)] "tok" = some (newRow 7 "ch" 0) ∧
    (((newRow 7 "ch" 0).consumed_at.isSome = (newRow 7 "ch" 0).used ∧
      ((newRow 7 "ch" 0).consumed_by.isSome = true → (newRow 7 "ch" 0).used = true)) ∧
     ((newRow 7 "ch" 0).used = false ∧ (newRow 7 "ch" 0).consumed_by = none ∧
      (newRow 7 "ch" 0).consumed_at = none)) :=
  ⟨Reachable.issue [] "tok" 7 "ch" 0 Reachable.init (by decide), by decide,
   c6_consumed_fields [("tok", newRow 7 "ch" 0)] "tok" (newRow 7 "ch" 0)
     (Reachable.issue [] "tok" 7 "ch" 0 Reachable.init (by decide)) (by decide)⟩

/-! ### C8 — issuance and generation collisions -/

/-- Outcome of the `/getkey` issuance path: either the generated token is
sent to the requester, or the catch block replies "Failed to issue key"
without any token. -/
inductive IssueOut where
  | issued (token : String)
  | failed
deriving DecidableEq, Repr

/-- The generation-and-INSERT portion of the `/getkey` handler
(lines 131–139): one call of `crypto.randomBytes(24).toString('hex')` —
the stream of draws is abstracted as `gen`, of which the handler consumes
only `gen 0` — followed by a single INSERT. A colliding token violates
the UNIQUE constraint, the INSERT rejects without modifying the table,
and control reaches the catch block: the handler replies with the failure
message, sends no token, and does not retry. -/
def getkeyIssue (db : Store) (gen : Nat → String) (uid : Nat)
    (channels : String) (now : Nat) : IssueOut × Store :=
  let t := gen 0
  if (lookup db t).isSome then (.failed, db)
  else (.issued t, insertRow db t uid channels now)

/-- Follows the spec's words, for comparison with `getkeyIssue`
("a collision is handled by regenerating and retrying, bounded (e.g., 3
attempts) before failing"): draw `gen i`, retry on collision while fuel
remains. -/
def issueRetrySpec (db : Store) (gen : Nat → String) (uid : Nat)
    (channels : String) (now : Nat) : Nat → Nat → IssueOut × Store
  | _, 0 => (.failed, db)
  | i, fuel + 1 =>
      if (lookup db (gen i)).isSome then
        issueRetrySpec db gen uid channels now (i + 1) fuel
      else (.issued (gen i), insertRow db (gen i) uid channels now)

/-- C8 counterexample: with the first draw colliding and the second draw
fresh, the handler fails immediately, while the spec's bounded retry
(3 attempts) would succeed on the second draw — the issuance path does
not retry generation. -/
theorem c8_counterexample :
    getkeyIssue [("aa", newRow 1 "c" 0)] (fun i => if i = 0 then "aa" else "bb")
        7 "ch" 5 = (.failed, [("aa", newRow 1 "c" 0)]) ∧
    issueRetrySpec [("aa", newRow 1 "c" 0)] (fun i => if i = 0 then "aa" else "bb")
        7 "ch" 5 0 3 =
      (.issued "bb", insertRow [("aa", newRow 1 "c" 0)] "bb" 7 "ch" 5) ∧
    lookup [("aa", newRow 1 "c" 0)] "bb" = none := by
  refine ⟨rfl, ?_, by decide⟩
  rfl

/-- C8 amended: issuance makes a single generation attempt — its outcome
depends only on the first draw, a collision fails immediately with the
store unchanged and no token emitted, and a fresh draw persists exactly
that token. -/
theorem c8_single_attempt (db : Store) (gen : Nat → String) (uid : Nat)
    (ch : String) (now : Nat) :
    ((lookup db (gen 0)).isSome = true →
      getkeyIssue db gen uid ch now = (.failed, db)) ∧
    (lookup db (gen 0) = none →
      getkeyIssue db gen uid ch now =
        (.issued (gen 0), insertRow db (gen 0) uid ch now)) ∧
    (∀ gen' : Nat → String, gen 0 = gen' 0 →
      getkeyIssue db gen uid ch now = getkeyIssue db gen' uid ch now) := by
  refine ⟨?_, ?_, ?_⟩
  · intro h
    simp [getkeyIssue, h]
  · intro h
    simp [getkeyIssue, h]
  · intro gen' h
    simp only [getkeyIssue, h]

theorem c8_single_attempt_witness :
    ((lookup [("aa", newRow 1 "c" 0)] "aa").isSome = true ∧
     getkeyIssue [("aa", newRow 1 "c" 0)] (fun _ => "aa") 7 "ch" 5 =
       (.failed, [("aa", newRow 1 "c" 0)]) ∧
     lookup [("aa", newRow 1 "c" 0)] "bb" = none ∧
     getkeyIssue [("aa", newRow 1 "c" 0)] (fun _ => "bb") 7 "ch" 5 =
       (.issued "bb", insertRow [("aa", newRow 1 "c" 0)] "bb" 7 "ch" 5)) :=
  ⟨by decide,
   (c8_single_attempt [("aa", newRow 1 "c" 0)] (fun _ => "aa") 7 "ch" 5).1 (by decide),
   by decide,
   (c8_single_attempt [("aa", newRow 1 "c" 0)] (fun _ => "bb") 7 "ch" 5).2.1 (by decide)⟩

/-! ### Concurrent redemption: interleavings of `consumeToken` on one token

Each in-flight call executes two atomic actions against the shared row of
the redeemed token (SQLite serialises individual statements): the SELECT
of line 65 — whose snapshot decides the early `already_used` return — and
the conditional UPDATE of lines 70–75 together with the affected-row-count
check. Call `i` has its own `machine_id` and `Date.now()` value, listed in
`args`. Rows of other tokens are never touched by these statements. -/

/-- Progress of one in-flight `consumeToken` call. -/
inductive CPhase where
  | start
  | willUpdate
  | done (r : RRes)
deriving DecidableEq, Repr

/-- Shared row of the redeemed token plus the progress of every call. -/
structure CConfig where
  row : Row
  calls : List CPhase
deriving DecidableEq, Repr

/-- One atomic action of call `i`. From `start`, the SELECT: a used row
resolves `already_used` at line 67, an unused snapshot proceeds to the
UPDATE. From `willUpdate`, the conditional UPDATE: on a still-unused row
it writes `used = 1, consumed_by, consumed_at` and reports one change
(line 80's success); otherwise it changes zero rows and the call resolves
`race_or_used` (line 78). -/
def cStep (args : List (Option String × Nat)) (c : CConfig) (i : Nat) :
    Option CConfig :=
  match c.calls[i]?, args[i]? with
  | some CPhase.start, some _ =>
      if c.row.used then
        some { c with calls := c.calls.set i (.done alreadyUsedRes) }
      else some { c with calls := c.calls.set i .willUpdate }
  | some CPhase.willUpdate, some (m, now) =>
      if c.row.used then
        some { c with calls := c.calls.set i (.done raceRes) }
      else some { row := consumedRow c.row m now,
                  calls := c.calls.set i (.done (redeemedRes now)) }
  | _, _ => none

/-- The scheduler picks any call to perform its next atomic action. -/
def CStep (args : List (Option String × Nat)) (c c' : CConfig) : Prop :=
  ∃ i, cStep args c i = some c'

/-- All `args.length` calls poised on an unredeemed row `r0`. -/
def initCConfig (args : List (Option String × Nat)) (r0 : Row) : CConfig :=
  { row := r0, calls := List.replicate args.length CPhase.start }

/-- Race invariant: while the row is unused it is untouched and no call
has finished; once it is used, a unique winning call `i` has resolved
`{valid:true, consumed_at: now_i}` and the row carries exactly that
call's write. -/
def CInv (args : List (Option String × Nat)) (r0 : Row) (c : CConfig) : Prop :=
  c.calls.length = args.length ∧
  (c.row.used = false →
    c.row = r0 ∧ ∀ p ∈ c.calls, p = CPhase.start ∨ p = CPhase.willUpdate) ∧
  (c.row.used = true →
    ∃ (i : Nat) (m : Option String) (now : Nat), args[i]? = some (m, now) ∧
      c.calls[i]? = some (CPhase.done (redeemedRes now)) ∧
      c.row = consumedRow r0 m now ∧
      ∀ j r, c.calls[j]? = some (.done r) → r.valid = true → j = i)

theorem cInv_init (args : List (Option String × Nat)) (r0 : Row)
    (h0 : r0.used = false) : CInv args r0 (initCConfig args r0) := by
  refine ⟨List.length_replicate _ _, fun _ => ⟨rfl, ?_⟩, fun h => ?_⟩
  · intro p hp
    exact Or.inl (List.eq_of_mem_replicate hp)
  · rw [initCConfig] at h
    simp only at h
    rw [h0] at h
    cases h

theorem cInv_step (args : List (Option String × Nat)) (r0 : Row)
    {c c' : CConfig} (hinv : CInv args r0 c) (hstep : CStep args c c') :
    CInv args r0 c' := by
  obtain ⟨hlen, hunused, hused⟩ := hinv
  obtain ⟨i, hi⟩ := hstep
  cases hcall : c.calls[i]? with
  | none => rw [cStep, hcall] at hi; cases hi
  | some ph =>
  cases harg : args[i]? with
  | none =>
      rw [cStep, hcall, harg] at hi
      cases ph <;> cases hi
  | some mn =>
  obtain ⟨m, now⟩ := mn
  have hilt : i < c.calls.length := (List.getElem?_eq_some.mp hcall).1
  cases ph with
  | done r => rw [cStep, hcall, harg] at hi; cases hi
  | start =>
      rw [cStep, hcall, harg] at hi
      cases hu : c.row.used with
      | true =>
          rw [hu] at hi
          simp only [if_true] at hi
          injection hi with hi
          subst hi
          obtain ⟨i0, m0, n0, harg0, hcall0, hrow0, huniq⟩ := hused hu
          have hne : i0 ≠ i := by
            intro he
            rw [he, hcall] at hcall0
            cases hcall0
          refine ⟨by simpa [List.length_set] using hlen, ?_, ?_⟩
          · intro hf
            have hf2 : c.row.used = false := hf
            rw [hu] at hf2
            exact absurd hf2 (by decide)
          · intro _
            refine ⟨i0, m0, n0, harg0, ?_, hrow0, ?_⟩
            · rw [List.getElem?_set_ne (Ne.symm hne)]
              exact hcall0
            intro j r hj hv
            by_cases hji : j = i
            · subst hji
              rw [List.getElem?_set_self hilt] at hj
              injection hj with hj
              injection hj with hj
              rw [← hj] at hv
              exact absurd hv (by decide)
            · rw [List.getElem?_set_ne (Ne.symm hji)] at hj
              exact huniq j r hj hv
      | false =>
          rw [hu] at hi
          simp only [Bool.false_eq_true, if_false] at hi
          injection hi with hi
          subst hi
          obtain ⟨hrow, hall⟩ := hunused hu
          refine ⟨by simpa [List.length_set] using hlen, ?_, ?_⟩
          · intro _
            refine ⟨hrow, ?_⟩
            intro p hp
            rcases List.mem_or_eq_of_mem_set hp with hmem | hwu
            · exact hall p hmem
            · exact Or.inr hwu
          · intro hf
            have hf2 : c.row.used = true := hf
            rw [hu] at hf2
            exact absurd hf2 (by decide)
  | willUpdate =>
      rw [cStep, hcall, harg] at hi
      cases hu : c.row.used with
      | true =>
          rw [hu] at hi
          simp only [if_true] at hi
          injection hi with hi
          subst hi
          obtain ⟨i0, m0, n0, harg0, hcall0, hrow0, huniq⟩ := hused hu
          have hne : i0 ≠ i := by
            intro he
            rw [he, hcall] at hcall0
            cases hcall0
          refine ⟨by simpa [List.length_set] using hlen, ?_, ?_⟩
          · intro hf
            have hf2 : c.row.used = false := hf
            rw [hu] at hf2
            exact absurd hf2 (by decide)
          · intro _
            refine ⟨i0, m0, n0, harg0, ?_, hrow0, ?_⟩
            · rw [List.getElem?_set_ne (Ne.symm hne)]
              exact hcall0
            intro j r hj hv
            by_cases hji : j = i
            · subst hji
              rw [List.getElem?_set_self hilt] at hj
              injection hj with hj
              injection hj with hj
              rw [← hj] at hv
              exact absurd hv (by decide)
            · rw [List.getElem?_set_ne (Ne.symm hji)] at hj
              exact huniq j r hj hv
      | false =>
          rw [hu] at hi
          simp only [Bool.false_eq_true, if_false] at hi
          injection hi with hi
          subst hi
          obtain ⟨hrow, hall⟩ := hunused hu
          refine ⟨by simpa [List.length_set] using hlen, ?_, ?_⟩
          · intro hf
            have hf2 : (consumedRow c.row m now).used = false := hf
            simp [consumedRow] at hf2
          · intro _
            refine ⟨i, m, now, harg, ?_, by rw [hrow], ?_⟩
            · rw [List.getElem?_set_self hilt]
            intro j r hj hv
            by_cases hji : j = i
            · exact hji
            · rw [List.getElem?_set_ne (Ne.symm hji)] at hj
              have := hall _ (List.getElem?_mem hj)
              rcases this with h | h <;> cases h

theorem cInv_reach (args : List (Option String × Nat)) (r0 : Row)
    (h0 : r0.used = false) {c : CConfig}
    (h : Relation.ReflTransGen (CStep args) (initCConfig args r0) c) :
    CInv args r0 c := by
  induction h with
  | refl => exact cInv_init args r0 h0
  | tail _ hbc ih => exact cInv_step args r0 ih hbc

/-! ### C1 — at-most-once redemption under concurrency -/

/-- C1 counterexample: the winning call's claimant argument is the empty
string, yet the final `consumed_by` is null — the UPDATE stores
`machine_id || null`, not the claimant argument itself, so the final
`consumedBy` can differ from the winning call's claimant. -/
theorem c1_counterexample :
    Relation.ReflTransGen (CStep [(some "", 7)])
      (initCConfig [(some "", 7)] (newRow 1 "c" 0))
      { row := consumedRow (newRow 1 "c" 0) (some "") 7,
        calls := [CPhase.done (redeemedRes 7)] } ∧
    (∀ p ∈ [CPhase.done (redeemedRes 7)], ∃ r, p = CPhase.done r) ∧
    (consumedRow (newRow 1 "c" 0) (some "") 7).consumed_by = none ∧
    (none : Option String) ≠ some "" := by
  refine ⟨?_, ?_, by decide, by decide⟩
  · have h1 : CStep [(some "", 7)] (initCConfig [(some "", 7)] (newRow 1 "c" 0))
        { row := newRow 1 "c" 0, calls := [CPhase.willUpdate] } := ⟨0, by decide⟩
    have h2 : CStep [(some "", 7)]
        { row := newRow 1 "c" 0, calls := [CPhase.willUpdate] }
        { row := consumedRow (newRow 1 "c" 0) (some "") 7,
          calls := [CPhase.done (redeemedRes 7)] } := ⟨0, by decide⟩
    exact Relation.ReflTransGen.tail (Relation.ReflTransGen.tail
      Relation.ReflTransGen.refl h1) h2
  · intro p hp
    simp only [List.mem_singleton] at hp
    exact ⟨redeemedRes 7, hp⟩

/-- C1 amended: for a token present and UNUSED, in every complete
interleaving of N ≥ 1 concurrent `consumeToken` calls exactly one call
resolves the successful payload; the final row is exactly that winner's
conditional write — `consumed_at` is the winner's timestamp and
`consumed_by` the winner's claimant coalesced by `|| null` (so empty or
absent becomes null) — and every other call resolves a `valid:false`
payload and changes nothing. -/
theorem c1_exactly_once (args : List (Option String × Nat)) (r0 : Row)
    (h0 : r0.used = false) (c : CConfig)
    (hreach : Relation.ReflTransGen (CStep args) (initCConfig args r0) c)
    (hdone : ∀ p ∈ c.calls, ∃ r, p = CPhase.done r)
    (hne : args ≠ []) :
    ∃ (i : Nat) (m : Option String) (now : Nat),
      args[i]? = some (m, now) ∧
      c.calls[i]? = some (CPhase.done (redeemedRes now)) ∧
      c.row = consumedRow r0 m now ∧
      c.row.used = true ∧
      c.row.consumed_by = jsOrNull m ∧
      c.row.consumed_at = some now ∧
      (∀ j r, c.calls[j]? = some (CPhase.done r) → r.valid = true → j = i) ∧
      (∀ j r, j ≠ i → c.calls[j]? = some (CPhase.done r) → r.valid = false) := by
  obtain ⟨hlen, hunused, hused⟩ := cInv_reach args r0 h0 hreach
  cases hu : c.row.used with
  | false =>
      obtain ⟨_, hall⟩ := hunused hu
      have hpos : 0 < c.calls.length := by
        rw [hlen]
        exact List.length_pos.mpr hne
      have hmem : c.calls[0] ∈ c.calls := List.getElem_mem hpos
      obtain ⟨r, hr⟩ := hdone _ hmem
      rcases hall _ hmem with h | h <;> rw [h] at hr <;> cases hr
  | true =>
      obtain ⟨i, m, now, harg, hcall, hrow, huniq⟩ := hused hu
      refine ⟨i, m, now, harg, hcall, hrow, rfl, by rw [hrow]; rfl,
              by rw [hrow]; rfl, huniq, ?_⟩
      intro j r hji hj
      cases hv : r.valid with
      | false => rfl
      | true => exact absurd (huniq j r hj hv) hji

theorem c1_exactly_once_witness :
    ∃ (i : Nat) (m : Option String) (now : Nat),
      ([(some "devA", 3), (some "devB", 4)] : List (Option String × Nat))[i]? =
        some (m, now) ∧
      ([CPhase.done (redeemedRes 3), CPhase.done alreadyUsedRes] :
        List CPhase)[i]? = some (CPhase.done (redeemedRes now)) ∧
      consumedRow (newRow 7 "ch" 0) (some "devA") 3 =
        consumedRow (newRow 7 "ch" 0) m now ∧
      (consumedRow (newRow 7 "ch" 0) (some "devA") 3).used = true ∧
      (consumedRow (newRow 7 "ch" 0) (some "devA") 3).consumed_by = jsOrNull m ∧
      (consumedRow (newRow 7 "ch" 0) (some "devA") 3).consumed_at = some now ∧
      (∀ j r, ([CPhase.done (redeemedRes 3), CPhase.done alreadyUsedRes] :
          List CPhase)[j]? = some (CPhase.done r) → r.valid = true → j = i) ∧
      (∀ j r, j ≠ i → ([CPhase.done (redeemedRes 3), CPhase.done alreadyUsedRes] :
          List CPhase)[j]? = some (CPhase.done r) → r.valid = false) := by
  have h1 : CStep [(some "devA", 3), (some "devB", 4)]
      (initCConfig [(some "devA", 3), (some "devB", 4)] (newRow 7 "ch" 0))
      { row := newRow 7 "ch" 0, calls := [CPhase.willUpdate, CPhase.start] } :=
    ⟨0, by decide⟩
  have h2 : CStep [(some "devA", 3), (some "devB", 4)]
      { row := newRow 7 "ch" 0, calls := [CPhase.willUpdate, CPhase.start] }
      { row := consumedRow (newRow 7 "ch" 0) (some "devA") 3,
        calls := [CPhase.done (redeemedRes 3), CPhase.start] } :=
    ⟨0, by decide⟩
  have h3 : CStep [(some "devA", 3), (some "devB", 4)]
      { row := consumedRow (newRow 7 "ch" 0) (some "devA") 3,
        calls := [CPhase.done (redeemedRes 3), CPhase.start] }
      { row := consumedRow (newRow 7 "ch" 0) (some "devA") 3,
        calls := [CPhase.done (redeemedRes 3), CPhase.done alreadyUsedRes] } :=
    ⟨1, by decide⟩
  have hreach := Relation.ReflTransGen.tail (Relation.ReflTransGen.tail
    (Relation.ReflTransGen.tail Relation.ReflTransGen.refl h1) h2) h3
  exact c1_exactly_once [(some "devA", 3), (some "devB", 4)] (newRow 7 "ch" 0)
    (by decide)
    { row := consumedRow (newRow 7 "ch" 0) (some "devA") 3,
      calls := [CPhase.done (redeemedRes 3), CPhase.done alreadyUsedRes] }
    hreach
    (by
      intro p hp
      simp only [List.mem_cons, List.mem_singleton] at hp
      rcases hp with h | h | h
      · exact ⟨redeemedRes 3, h⟩
      · exact ⟨alreadyUsedRes, h⟩
      · cases h)
    (by decide)

/-! ### C2 — losing the race is a distinct payload -/

/-- C2 counterexample: both calls pass the SELECT before either UPDATE
runs; call 0 wins the conditional UPDATE and call 1, whose token exists
and is already USED when its UPDATE runs, resolves
`{valid:false, reason:'race_or_used'}` — not the `already_used` payload
the claim requires for every such call. -/
theorem c2_counterexample :
    Relation.ReflTransGen (CStep [(some "devA", 3), (some "devB", 4)])
      (initCConfig [(some "devA", 3), (some "devB", 4)] (newRow 7 "ch" 0))
      { row := consumedRow (newRow 7 "ch" 0) (some "devA") 3,
        calls := [CPhase.done (redeemedRes 3), CPhase.done raceRes] } ∧
    ([CPhase.done (redeemedRes 3), CPhase.done raceRes] : List CPhase)[1]? =
      some (CPhase.done raceRes) ∧
    raceRes.reason = some "race_or_used" ∧
    alreadyUsedRes.reason = some "already_used" ∧
    raceRes ≠ alreadyUsedRes := by
  refine ⟨?_, by decide, by decide, by decide, by decide⟩
  have h1 : CStep [(some "devA", 3), (some "devB", 4)]
      (initCConfig [(some "devA", 3), (some "devB", 4)] (newRow 7 "ch" 0))
      { row := newRow 7 "ch" 0, calls := [CPhase.willUpdate, CPhase.start] } :=
    ⟨0, by decide⟩
  have h2 : CStep [(some "devA", 3), (some "devB", 4)]
      { row := newRow 7 "ch" 0, calls := [CPhase.willUpdate, CPhase.start] }
      { row := newRow 7 "ch" 0,
        calls := [CPhase.willUpdate, CPhase.willUpdate] } :=
    ⟨1, by decide⟩
  have h3 : CStep [(some "devA", 3), (some "devB", 4)]
      { row := newRow 7 "ch" 0,
        calls := [CPhase.willUpdate, CPhase.willUpdate] }
      { row := consumedRow (newRow 7 "ch" 0) (some "devA") 3,
        calls := [CPhase.done (redeemedRes 3), CPhase.willUpdate] } :=
    ⟨0, by decide⟩
  have h4 : CStep [(some "devA", 3), (some "devB", 4)]
      { row := consumedRow (newRow 7 "ch" 0) (some "devA") 3,
        calls := [CPhase.done (redeemedRes 3), CPhase.willUpdate] }
      { row := consumedRow (newRow 7 "ch" 0) (some "devA") 3,
        calls := [CPhase.done (redeemedRes 3), CPhase.done raceRes] } :=
    ⟨1, by decide⟩
  exact Relation.ReflTransGen.tail (Relation.ReflTransGen.tail
    (Relation.ReflTransGen.tail (Relation.ReflTransGen.tail
      Relation.ReflTransGen.refl h1) h2) h3) h4

/-- C2 amended: on a token that exists and is USED, a call that saw the
used row at its SELECT resolves `{valid:false, reason:'already_used'}`,
while a call that saw UNUSED at its SELECT and lost the race at its
conditional UPDATE resolves `{valid:false, reason:'race_or_used'}`. Both
are non-success payloads and neither changes the row, but the two cases
carry different `reason` strings and are distinguishable by the caller. -/
theorem c2_used_outcomes (args : List (Option String × Nat)) (c : CConfig)
    (i : Nat) (m : Option String) (now : Nat)
    (harg : args[i]? = some (m, now)) (hu : c.row.used = true) :
    (c.calls[i]? = some CPhase.start →
      cStep args c i =
        some { c with calls := c.calls.set i (CPhase.done alreadyUsedRes) }) ∧
    (c.calls[i]? = some CPhase.willUpdate →
      cStep args c i =
        some { c with calls := c.calls.set i (CPhase.done raceRes) }) ∧
    alreadyUsedRes.valid = false ∧ raceRes.valid = false ∧
    raceRes ≠ alreadyUsedRes := by
  refine ⟨?_, ?_, by decide, by decide, by decide⟩
  · intro hc
    rw [cStep, hc, harg, hu]
    rfl
  · intro hc
    rw [cStep, hc, harg, hu]
    rfl

theorem c2_used_outcomes_witness :
    cStep [(some "x", 1), (some "y", 2)]
      { row := consumedRow (newRow 7 "ch" 0) (some "devA") 3,
        calls := [CPhase.start, CPhase.willUpdate] } 0 =
      some { row := consumedRow (newRow 7 "ch" 0) (some "devA") 3,
             calls := ([CPhase.start, CPhase.willUpdate] : List CPhase).set 0
               (CPhase.done alreadyUsedRes) } ∧
    cStep [(some "x", 1), (some "y", 2)]
      { row := consumedRow (newRow 7 "ch" 0) (some "devA") 3,
        calls := [CPhase.start, CPhase.willUpdate] } 1 =
      some { row := consumedRow (newRow 7 "ch" 0) (some "devA") 3,
             calls := ([CPhase.start, CPhase.willUpdate] : List CPhase).set 1
               (CPhase.done raceRes) } :=
  ⟨(c2_used_outcomes [(some "x", 1), (some "y", 2)]
      { row := consumedRow (newRow 7 "ch" 0) (some "devA") 3,
        calls := [CPhase.start, CPhase.willUpdate] } 0 (some "x") 1
      (by decide) (by decide)).1 (by decide),
   (c2_used_outcomes [(some "x", 1), (some "y", 2)]
      { row := consumedRow (newRow 7 "ch" 0) (some "devA") 3,
        calls := [CPhase.start, CPhase.willUpdate] } 1 (some "y") 2
      (by decide) (by decide)).2.1 (by decide)⟩

theorem c10_timestamp_witness :
    (redeemedRes 5).consumed_at = some 5 ∧
    ∃ row', lookup [("tok", consumedRow (newRow 7 "c" 0) (some "dev") 5)] "tok" =
      some row' ∧ row'.consumed_at = some 5 :=
  c10_timestamp [("tok", newRow 7 "c" 0)] "tok" (some "dev") 5 (redeemedRes 5)
    [("tok", consumedRow (newRow 7 "c" 0) (some "dev") 5)] (by decide) (by decide)
